import Mathlib

/-
Shallow embedding of the embedded-interpreter bootstrap of fcjr/local-translate
(src/src-tauri/src/main.rs).  Filesystem paths are modelled as component
lists; the filesystem that the program inspects (`Path::exists`,
`std::fs::read_dir`) is an abstract structure; directory-entry read errors
(which Rust's `entries.flatten()` skips) are modelled as `none` elements of
the entry list.  The build mode `cfg!(dev)` is a boolean parameter, and the
compile-time constant `env!("CARGO_MANIFEST_DIR")` is a fixed abstract path.
-/

namespace LocalTranslate

/-- A filesystem path, as its list of components (`PathBuf`). -/
abbrev Path := List String

/-- `str::starts_with`, as a kernel-computable test on the character lists of
the two strings (`String.startsWith` itself does not reduce in the kernel). -/
def strStartsWith (s pre : String) : Bool := pre.data.isPrefixOf s.data

/-- `Path::join` with a single extra component. -/
def Path.join (p : Path) (s : String) : Path := p ++ [s]

/-- The string form of a path (`to_string_lossy` / `display`). -/
def Path.display (p : Path) : String := String.intercalate "/" p

/-- What a filesystem node is: a regular file or a directory. -/
inductive FKind
  | file
  | dir
deriving DecidableEq, Repr

/-- Abstract filesystem state.  `kind` gives the node at a path (`none` when
nothing exists there); `readDir` is `std::fs::read_dir`: `none` when the read
itself fails (e.g. the directory is missing or unreadable), otherwise the
list of entries in iteration order, each entry either a file name or `none`
for an entry whose read errored (skipped by `entries.flatten()`). -/
structure FS where
  kind : Path → Option FKind
  readDir : Path → Option (List (Option String))

/-- `Path::exists`: true iff some node is at the path (file or directory). -/
def FS.pathExists (fs : FS) (p : Path) : Bool := (fs.kind p).isSome

/-- The compile-time constant `env!("CARGO_MANIFEST_DIR")`. -/
def manifestDir : Path := ["local-translate", "src-tauri"]

/-- `project_root`: the parent of the manifest directory (main.rs line 35-37). -/
def projectRoot : Path := ["local-translate"]

/-- The fixed source directory `<manifest>/src-python` (main.rs line 52). -/
def srcPython : Path := Path.join manifestDir "src-python"

/-- The scanning loop of `find_site_packages` (main.rs lines 18-27) over the
entries of `<venv_dir>/lib`: skip erroring entries (`flatten`), and for each
name starting with `"python"` return `<lib>/<name>/site-packages` when that
path exists, otherwise keep scanning. -/
def scanEntries (fs : FS) (libDir : Path) : List (Option String) → Option Path
  | [] => none
  | none :: rest => scanEntries fs libDir rest
  | some name :: rest =>
      if strStartsWith name "python" then
        let sp := Path.join (Path.join libDir name) "site-packages"
        if fs.pathExists sp then some sp else scanEntries fs libDir rest
      else scanEntries fs libDir rest

/-- `find_site_packages` (main.rs lines 16-29): read `<venv_dir>/lib`; if the
read fails produce `none`, otherwise scan the entries. -/
def find_site_packages (fs : FS) (venv_dir : Path) : Option Path :=
  let lib_dir := Path.join venv_dir "lib"
  match fs.readDir lib_dir with
  | some entries => scanEntries fs lib_dir entries
  | none => none

/-- The module-search-path composition of `main` (lines 52-56): the fixed
source directory first, then the found site-packages path if any. -/
def compose (fs : FS) (venv_dir : Path) : List String :=
  let paths := [Path.display srcPython]
  match find_site_packages fs venv_dir with
  | some sp => paths ++ [Path.display sp]
  | none => paths

/-- The target operating system of the build.  The source is compiled for one
concrete OS; the only OS-dependent ingredients that the claims touch are the
path-list separator of the platform and `dunce::simplified`. -/
inductive OS
  | unix
  | windows
deriving DecidableEq, Repr

/-- The platform's separator for path-list environment variables such as
`PYTHONPATH`: `:` on Unix-likes, `;` on Windows. -/
def osPathSep : OS → String
  | .unix => ":"
  | .windows => ";"

/-- `paths.join(":")` (main.rs line 56): the source joins the composed search
path with a hard-coded colon, independent of the target OS. -/
def pythonpathString (paths : List String) : String := String.intercalate ":" paths

/-- Modelled from the spec: "serialized into a single colon/OS-path-separator
joined string" — the claim's reading, joining with the separator of the
target OS. -/
def pythonpathStringSpec (os : OS) (paths : List String) : String :=
  String.intercalate (osPathSep os) paths

/-- `dunce::simplified` (main.rs line 63).  The external `dunce` crate's
`simplified` is a pure syntactic function `&Path -> &Path` taking no
filesystem handle: on non-Windows targets it returns the path unchanged, and
on Windows it strips the Win32 verbatim prefix `\\?\` from the front of the
path when present.  It performs no filesystem access. -/
def dunce_simplified (os : OS) (p : Path) : Path :=
  match os with
  | .unix => p
  | .windows =>
      match p with
      | [] => []
      | c :: rest => if strStartsWith c "\\\\?\\" then (c.drop 4) :: rest else c :: rest

/-- A table of which paths are symbolic links, for stating what symlink
resolution would have to do. -/
structure LinkFS where
  isSymlink : Path → Bool

/-- Modelled from the spec: a path is free of "symbolic-link indirection"
when no leading portion of it is a symbolic link. -/
def symlinkFree (lfs : LinkFS) (p : Path) : Bool :=
  p.inits.all fun q => !lfs.isSymlink q

/-- `PythonInterpreterEnv` (pytauri): the tagged environment descriptor. -/
inductive PyEnv
  | Venv (p : Path)
  | Standalone (p : Path)
deriving DecidableEq, Repr

/-- The host-level startup failures of `main`: the formatted
no-virtual-environment error (main.rs lines 41-45), the resource-directory
failure of the release branch (lines 61-62), and `builder.build()?` failing
(line 71). -/
inductive MainError
  | environmentNotFound (attempted : Path) (msg : String)
  | resourceDirUnavailable
  | interpInit
deriving DecidableEq, Repr

/-- The observable side effects of `main`, in program order.  `fsMutation`
is in the type so that "performs no filesystem mutation" is a contentful
statement: the embedding of the source never emits it. -/
inductive Event
  | setEnvVar (name value : String)
  | fsMutation (p : Path)
  | buildInterpreter (env : PyEnv)
  | processExit (code : Int)
deriving DecidableEq, Repr

/-- The formatted message of main.rs lines 41-45: it names the attempted
path and the remediation command. -/
def envNotFoundMsg (p : Path) : String :=
  "No virtual environment found at " ++ Path.display p ++ ". Run `uv sync` first."

/-- `var("VIRTUAL_ENV").map(PathBuf::from).unwrap_or_else(...)` (main.rs
lines 33-39): the override value when the variable is set, otherwise
`<project_root>/.venv`. -/
def venvDirOf (virtualEnv : Option Path) : Path :=
  virtualEnv.getD (Path.join projectRoot ".venv")

/-- The environment-resolution portion of `main` (lines 32-67), returning the
`PythonInterpreterEnv` together with the side effects it performed, or the
startup error.  `dev` is `cfg!(dev)`; `virtualEnv` is the `VIRTUAL_ENV`
variable; `resourceDir` is what `tauri::utils::platform::resource_dir`
reports (`none` when it fails). -/
def resolve_env (dev : Bool) (os : OS) (fs : FS) (virtualEnv : Option Path)
    (resourceDir : Option Path) : Except MainError (PyEnv × List Event) :=
  if dev then
    let venv_dir := venvDirOf virtualEnv
    if fs.pathExists venv_dir then
      let paths := compose fs venv_dir
      .ok (.Venv venv_dir, [.setEnvVar "PYTHONPATH" (pythonpathString paths)])
    else
      .error (.environmentNotFound venv_dir (envNotFoundMsg venv_dir))
  else
    match resourceDir with
    | some rd => .ok (.Standalone (dunce_simplified os rd), [])
    | none => .error .resourceDirUnavailable

/-- The interpreter as the host observes it: whether `builder.build()`
succeeds, and the exit status that `interpreter.run()` reports. -/
structure Interp where
  buildOk : Bool
  runExit : Int

/-- The outcome of `main`.  `returned` stands for `main` returning
`Ok(_) : Result<Infallible, _>` normally; `Infallible` is uninhabited, so
the embedding never produces it. -/
inductive MainResult
  | errored (e : MainError)
  | exited (code : Int)
  | returned
deriving DecidableEq, Repr

/-- `main` (main.rs lines 31-74): resolve the environment, build the
interpreter (`builder.build()?`), run it, and pass its exit status to
`std::process::exit`.  The second component is the trace of side effects in
program order. -/
def main (dev : Bool) (os : OS) (fs : FS) (virtualEnv : Option Path)
    (resourceDir : Option Path) (w : Interp) : MainResult × List Event :=
  match resolve_env dev os fs virtualEnv resourceDir with
  | .error e => (.errored e, [])
  | .ok (env, evs) =>
      if w.buildOk then
        (.exited w.runExit, evs ++ [.buildInterpreter env, .processExit w.runExit])
      else
        (.errored .interpInit, evs ++ [.buildInterpreter env])

/-- Formalisation of claim C6 as stated: the scan selects the first
prefix-matching entry encountered in iteration order and appends that
entry's `site-packages` path, with no condition on that path existing. -/
def find_site_packages_claimed (fs : FS) (venv_dir : Path) : Option Path :=
  let lib_dir := Path.join venv_dir "lib"
  match fs.readDir lib_dir with
  | some entries =>
      ((entries.filterMap id).find? fun n => strStartsWith n "python").map
        fun n => Path.join (Path.join lib_dir n) "site-packages"
  | none => none

/-- The selection rule the code actually implements, written as a single
`find?`: the first prefix-matching entry, in iteration order, whose
`site-packages` child exists. -/
def find_site_packages_spec (fs : FS) (venv_dir : Path) : Option Path :=
  let lib_dir := Path.join venv_dir "lib"
  match fs.readDir lib_dir with
  | some entries =>
      ((entries.filterMap id).find? fun n =>
          strStartsWith n "python" &&
            fs.pathExists (Path.join (Path.join lib_dir n) "site-packages")).map
        fun n => Path.join (Path.join lib_dir n) "site-packages"
  | none => none

/-- Helper: when `e` is the unique entry that both matches the `python`
prefix and has an existing `site-packages` child, the scan returns exactly
that child. -/
theorem scanEntries_unique (fs : FS) (libDir : Path) (e : String)
    (names : List (Option String))
    (hmem : some e ∈ names)
    (hpre : strStartsWith e "python" = true)
    (hsp : fs.pathExists (Path.join (Path.join libDir e) "site-packages") = true)
    (huniq : ∀ x, some x ∈ names → strStartsWith x "python" = true →
      fs.pathExists (Path.join (Path.join libDir x) "site-packages") = true → x = e) :
    scanEntries fs libDir names =
      some (Path.join (Path.join libDir e) "site-packages") := by
  induction names with
  | nil => cases hmem
  | cons hd rest ih =>
      cases hd with
      | none =>
          have hmem' : some e ∈ rest := by
            rcases List.mem_cons.mp hmem with h | h
            · exact absurd h (by simp)
            · exact h
          have huniq' : ∀ x, some x ∈ rest → strStartsWith x "python" = true →
              fs.pathExists (Path.join (Path.join libDir x) "site-packages") = true → x = e :=
            fun x hx => huniq x (List.mem_cons_of_mem _ hx)
          simpa [scanEntries] using ih hmem' huniq'
      | some n =>
          by_cases h1 : strStartsWith n "python" = true
          · by_cases h2 :
                fs.pathExists (Path.join (Path.join libDir n) "site-packages") = true
            · have hne : n = e := huniq n (List.mem_cons_self _ _) h1 h2
              subst hne
              simp [scanEntries, h1, h2]
            · have hmem' : some e ∈ rest := by
                rcases List.mem_cons.mp hmem with h | h
                · have he : e = n := Option.some.inj h
                  exact absurd (he ▸ hsp) h2
                · exact h
              have huniq' : ∀ x, some x ∈ rest → strStartsWith x "python" = true →
                  fs.pathExists (Path.join (Path.join libDir x) "site-packages") = true →
                  x = e :=
                fun x hx => huniq x (List.mem_cons_of_mem _ hx)
              simpa [scanEntries, h1, h2] using ih hmem' huniq'
          · have hmem' : some e ∈ rest := by
              rcases List.mem_cons.mp hmem with h | h
              · exact absurd ((Option.some.inj h) ▸ hpre) h1
              · exact h
            have huniq' : ∀ x, some x ∈ rest → strStartsWith x "python" = true →
                fs.pathExists (Path.join (Path.join libDir x) "site-packages") = true →
                x = e :=
              fun x hx => huniq x (List.mem_cons_of_mem _ hx)
            simpa [scanEntries, h1] using ih hmem' huniq'

/-- Helper: with no prefix-matching entry at all the scan yields nothing. -/
theorem scanEntries_no_match (fs : FS) (libDir : Path)
    (names : List (Option String))
    (hnone : ∀ x, some x ∈ names → strStartsWith x "python" = false) :
    scanEntries fs libDir names = none := by
  induction names with
  | nil => rfl
  | cons hd rest ih =>
      cases hd with
      | none =>
          simpa [scanEntries] using
            ih fun x hx => hnone x (List.mem_cons_of_mem _ hx)
      | some n =>
          have h1 : strStartsWith n "python" = false :=
            hnone n (List.mem_cons_self _ _)
          simpa [scanEntries, h1] using
            ih fun x hx => hnone x (List.mem_cons_of_mem _ hx)

/-- Helper: the scan loop equals the one-pass `find?` selection rule: first
entry (in iteration order) whose name matches the prefix and whose
`site-packages` child exists. -/
theorem scanEntries_eq_find (fs : FS) (libDir : Path) :
    ∀ names : List (Option String),
      scanEntries fs libDir names =
        ((names.filterMap id).find? fun n =>
            strStartsWith n "python" &&
              fs.pathExists (Path.join (Path.join libDir n) "site-packages")).map
          fun n => Path.join (Path.join libDir n) "site-packages" := by
  intro names
  induction names with
  | nil => rfl
  | cons hd rest ih =>
      cases hd with
      | none => simpa [scanEntries] using ih
      | some n =>
          by_cases h1 : strStartsWith n "python" = true
          · by_cases h2 :
                fs.pathExists (Path.join (Path.join libDir n) "site-packages") = true
            · simp [scanEntries, h1, h2, List.find?]
            · simp only [scanEntries, h1, if_true, h2, if_false]
              simpa [List.find?, h1, Bool.eq_false_iff.mpr h2] using ih
          · simp only [scanEntries, h1, if_false]
            simpa [List.find?, Bool.eq_false_iff.mpr h1] using ih

/-- Fixture: a venv at `v` whose `lib` holds a single `python3.12` entry
with an existing `site-packages` child. -/
def wfs1 : FS where
  kind := fun p =>
    if p = ["v"] then some .dir
    else if p = ["v", "lib"] then some .dir
    else if p = ["v", "lib", "python3.12"] then some .dir
    else if p = ["v", "lib", "python3.12", "site-packages"] then some .dir
    else none
  readDir := fun p => if p = ["v", "lib"] then some [some "python3.12"] else none

/-- Fixture: a venv at `v` whose `lib` holds no `python`-prefixed entry
(one foreign entry plus one unreadable entry). -/
def wfsNoMatch : FS where
  kind := fun p => if p = ["v"] then some .dir else if p = ["v", "lib"] then some .dir else none
  readDir := fun p => if p = ["v", "lib"] then some [some "pypy3.10", none] else none

/-- Fixture: an entirely empty filesystem. -/
def wfsEmpty : FS where
  kind := fun _ => none
  readDir := fun _ => none

/-- Fixture: a venv at `v` with two `python`-prefixed entries in iteration
order `python3.10`, `python3.12`, where only the second has an existing
`site-packages` child. -/
def c6fs : FS where
  kind := fun p =>
    if p = ["v"] then some .dir
    else if p = ["v", "lib"] then some .dir
    else if p = ["v", "lib", "python3.10"] then some .dir
    else if p = ["v", "lib", "python3.12"] then some .dir
    else if p = ["v", "lib", "python3.12", "site-packages"] then some .dir
    else none
  readDir := fun p =>
    if p = ["v", "lib"] then some [some "python3.10", some "python3.12"] else none

/-- Claim C1: for every venv layout with exactly one subdirectory of
`<venv_dir>/lib` whose name starts with the interpreter language prefix and
which has an existing `site-packages` child, the composed module search path
has exactly two entries in fixed order: the fixed source directory first,
then that `site-packages` path. -/
theorem c1_compose_unique_match (fs : FS) (venv_dir : Path) (e : String)
    (names : List (Option String))
    (hrd : fs.readDir (Path.join venv_dir "lib") = some names)
    (hmem : some e ∈ names)
    (hpre : strStartsWith e "python" = true)
    (hsp : fs.pathExists
      (Path.join (Path.join (Path.join venv_dir "lib") e) "site-packages") = true)
    (huniq : ∀ x, some x ∈ names → strStartsWith x "python" = true →
      fs.pathExists
        (Path.join (Path.join (Path.join venv_dir "lib") x) "site-packages") = true →
      x = e) :
    compose fs venv_dir =
      [Path.display srcPython,
       Path.display
         (Path.join (Path.join (Path.join venv_dir "lib") e) "site-packages")] := by
  simp only [compose, find_site_packages, hrd,
    scanEntries_unique fs (Path.join venv_dir "lib") e names hmem hpre hsp huniq,
    List.singleton_append]

/-- Witness for C1 at the fixture `wfs1`. -/
theorem c1_witness :
    wfs1.readDir (Path.join ["v"] "lib") = some [some "python3.12"] ∧
    compose wfs1 ["v"] =
      [Path.display srcPython, Path.display ["v", "lib", "python3.12", "site-packages"]] := by
  refine ⟨by decide, ?_⟩
  have h := c1_compose_unique_match wfs1 ["v"] "python3.12" [some "python3.12"]
    (by decide) (by decide) (by decide) (by decide)
    (by intro x hx _ _; simpa using hx)
  simpa using h

/-- Claim C2: for every venv directory whose `lib` listing holds no entry
starting with the interpreter language prefix, composition does not fail and
the composed search path has exactly one entry, the fixed source
directory. -/
theorem c2_compose_no_match (fs : FS) (venv_dir : Path)
    (names : List (Option String))
    (hrd : fs.readDir (Path.join venv_dir "lib") = some names)
    (hnone : ∀ x, some x ∈ names → strStartsWith x "python" = false) :
    compose fs venv_dir = [Path.display srcPython] := by
  simp only [compose, find_site_packages, hrd,
    scanEntries_no_match fs (Path.join venv_dir "lib") names hnone]

/-- Witness for C2 at the fixture `wfsNoMatch`. -/
theorem c2_witness :
    wfsNoMatch.readDir (Path.join ["v"] "lib") = some [some "pypy3.10", none] ∧
    compose wfsNoMatch ["v"] = [Path.display srcPython] := by
  refine ⟨by decide, ?_⟩
  exact c2_compose_no_match wfsNoMatch ["v"] [some "pypy3.10", none] (by decide)
    (by intro x hx; simp at hx; subst hx; decide)

/-- Claim C9: search-path composition is total over filesystem states: when
`<venv_dir>/lib` cannot be read no error is raised and the composed path is
just the fixed source directory, and an unreadable single directory entry is
skipped by the scan. -/
theorem c9_compose_total (fs : FS) (venv_dir libDir : Path)
    (rest : List (Option String)) :
    (fs.readDir (Path.join venv_dir "lib") = none →
      compose fs venv_dir = [Path.display srcPython]) ∧
    scanEntries fs libDir (none :: rest) = scanEntries fs libDir rest := by
  constructor
  · intro h
    simp only [compose, find_site_packages, h]
  · rfl

/-- Witness for C9 at the empty filesystem. -/
theorem c9_witness :
    wfsEmpty.readDir (Path.join ["v"] "lib") = none ∧
    compose wfsEmpty ["v"] = [Path.display srcPython] ∧
    scanEntries wfsEmpty ["v", "lib"] [none, some "python3.12"] =
      scanEntries wfsEmpty ["v", "lib"] [some "python3.12"] := by
  refine ⟨rfl, ?_, ?_⟩
  · exact (c9_compose_total wfsEmpty ["v"] ["v", "lib"] []).1 rfl
  · exact (c9_compose_total wfsEmpty ["v"] ["v", "lib"] [some "python3.12"]).2

/-- Claim C6 as stated is false: with multiple prefix-matching entries the
scan does not always select the first prefix-matching entry encountered —
when that first entry has no existing `site-packages` child, the code skips
it and returns a later entry's `site-packages`.  At `c6fs` the first match
is `python3.10`, yet the code returns `python3.12`'s child. -/
theorem c6_counterexample :
    find_site_packages_claimed c6fs ["v"] =
      some ["v", "lib", "python3.10", "site-packages"] ∧
    find_site_packages c6fs ["v"] =
      some ["v", "lib", "python3.12", "site-packages"] ∧
    find_site_packages c6fs ["v"] ≠ find_site_packages_claimed c6fs ["v"] := by
  refine ⟨by decide, by decide, by decide⟩

/-- Claim C6 (amended): when `<venv_dir>/lib` holds multiple prefix-matching
subdirectories, the scan selects the first entry in iteration order that
both matches the prefix and has an existing `site-packages` child, and
returns that child; no exact version match is required.  Stated as the
equality of the scan with the one-pass `find?` selection rule, over every
filesystem and venv directory. -/
theorem c6_first_match_with_site_packages (fs : FS) (venv_dir : Path) :
    find_site_packages fs venv_dir = find_site_packages_spec fs venv_dir := by
  cases h : fs.readDir (Path.join venv_dir "lib") with
  | none => simp only [find_site_packages, find_site_packages_spec, h]
  | some entries =>
      simp only [find_site_packages, find_site_packages_spec, h,
        scanEntries_eq_find fs (Path.join venv_dir "lib") entries]

/-- Fixture: a filesystem whose only node is a plain file at the default
venv path `<project_root>/.venv`. -/
def wfsFile : FS where
  kind := fun p => if p = ["local-translate", ".venv"] then some .file else none
  readDir := fun _ => none

/-- Fixture: a symlink table where `opt/app` is a symbolic link. -/
def c8lfs : LinkFS where
  isSymlink := fun p => decide (p = ["opt", "app"])

/-- Claim C3: in development mode, when the resolved venv directory does not
exist on disk, `main` fails with the environment-not-found error carrying
the attempted path and the remediation hint to run `uv sync`; the trace is
empty, so nothing is retried and no filesystem mutation (and no environment
write) is performed. -/
theorem c3_env_not_found (os : OS) (fs : FS) (ve : Option Path)
    (rd : Option Path) (w : Interp)
    (h : fs.pathExists (venvDirOf ve) = false) :
    main true os fs ve rd w =
      (.errored (.environmentNotFound (venvDirOf ve)
        ("No virtual environment found at " ++ Path.display (venvDirOf ve) ++
          ". Run `uv sync` first.")), []) := by
  simp [main, resolve_env, h, envNotFoundMsg]

/-- Witness for C3 at the empty filesystem. -/
theorem c3_witness :
    wfsEmpty.pathExists (venvDirOf none) = false ∧
    main true OS.unix wfsEmpty none none (Interp.mk true 0) =
      (.errored (.environmentNotFound (venvDirOf none)
        ("No virtual environment found at " ++ Path.display (venvDirOf none) ++
          ". Run `uv sync` first.")), []) :=
  ⟨by decide, c3_env_not_found OS.unix wfsEmpty none none (Interp.mk true 0) (by decide)⟩

/-- Claim C4: whenever `main` reaches process termination, the exit status
reported by `interpreter.run()` is passed verbatim to `std::process::exit`
(the terminating event carries exactly `w.runExit`), and `main` never
returns normally (its success type is `Infallible`). -/
theorem c4_exit_verbatim (dev : Bool) (os : OS) (fs : FS) (ve : Option Path)
    (rd : Option Path) (w : Interp) :
    (∀ c evs, main dev os fs ve rd w = (.exited c, evs) →
      c = w.runExit ∧ evs.getLast? = some (.processExit w.runExit)) ∧
    (main dev os fs ve rd w).1 ≠ MainResult.returned := by
  constructor
  · intro c evs hm
    unfold main at hm
    cases hres : resolve_env dev os fs ve rd with
    | error e => rw [hres] at hm; simp at hm
    | ok pe =>
        obtain ⟨env, evs0⟩ := pe
        rw [hres] at hm
        by_cases hb : w.buildOk = true
        · simp only [hb, if_true, Prod.mk.injEq, MainResult.exited.injEq] at hm
          obtain ⟨hc, he⟩ := hm
          refine ⟨hc.symm, ?_⟩
          rw [← he, show evs0 ++ [Event.buildInterpreter env, Event.processExit w.runExit] =
            (evs0 ++ [Event.buildInterpreter env]) ++ [Event.processExit w.runExit] by
              simp [List.append_assoc]]
          exact List.getLast?_concat _
        · simp [hb] at hm
  · unfold main
    cases hres : resolve_env dev os fs ve rd with
    | error e => simp
    | ok pe =>
        obtain ⟨env, evs0⟩ := pe
        by_cases hb : w.buildOk = true <;> simp [hb]

/-- Witness for C4 in release mode with a successful build and exit
status 7. -/
theorem c4_witness :
    ((7 : Int) = (Interp.mk true 7).runExit ∧
      ([Event.buildInterpreter (PyEnv.Standalone ["r"]),
        Event.processExit 7].getLast? =
        some (Event.processExit (Interp.mk true 7).runExit))) ∧
    (main false OS.unix wfsEmpty none (some ["r"]) (Interp.mk true 7)).1 ≠
      MainResult.returned :=
  ⟨(c4_exit_verbatim false OS.unix wfsEmpty none (some ["r"]) (Interp.mk true 7)).1 7
      [Event.buildInterpreter (PyEnv.Standalone ["r"]), Event.processExit 7] (by decide),
   (c4_exit_verbatim false OS.unix wfsEmpty none (some ["r"]) (Interp.mk true 7)).2⟩

/-- Claim C5 as stated is false in one respect: the source joins the
composed search path with a hard-coded `":"` (main.rs line 56), not with the
path separator of the target OS — on Windows that separator is `";"`, so on
that OS the serialized string differs from the claimed one. -/
theorem c5_counterexample :
    pythonpathString ["a", "b"] ≠ pythonpathStringSpec OS.windows ["a", "b"] := by decide

/-- Claim C5 (amended): in development mode the composed search path is
serialized by joining its entries with `":"` and written into `PYTHONPATH`
exactly once, strictly before the interpreter is constructed: the whole
trace is the single `setEnvVar`, then `buildInterpreter`, then
`processExit`, with no environment write after the build. -/
theorem c5_pythonpath_once_before_build (os : OS) (fs : FS) (ve : Option Path)
    (rd : Option Path) (w : Interp)
    (hex : fs.pathExists (venvDirOf ve) = true)
    (hb : w.buildOk = true) :
    main true os fs ve rd w =
      (.exited w.runExit,
       [.setEnvVar "PYTHONPATH" (pythonpathString (compose fs (venvDirOf ve))),
        .buildInterpreter (.Venv (venvDirOf ve)),
        .processExit w.runExit]) := by
  simp [main, resolve_env, hex, hb]

/-- Witness for C5 (amended) at the fixture `wfs1`. -/
theorem c5_witness :
    wfs1.pathExists (venvDirOf (some ["v"])) = true ∧
    (Interp.mk true 7).buildOk = true ∧
    main true OS.unix wfs1 (some ["v"]) none (Interp.mk true 7) =
      (.exited 7,
       [.setEnvVar "PYTHONPATH" (pythonpathString (compose wfs1 (venvDirOf (some ["v"])))),
        .buildInterpreter (.Venv (venvDirOf (some ["v"]))),
        .processExit 7]) :=
  ⟨by decide, rfl,
   c5_pythonpath_once_before_build OS.unix wfs1 (some ["v"]) none (Interp.mk true 7)
     (by decide) rfl⟩

/-- Claim C7: development-mode resolution reads the `VIRTUAL_ENV` override:
when it is set its value is the venv directory used, and when it is absent
the default `<project_root>/.venv` is used; the rest of dev resolution is a
function of that directory alone. -/
theorem c7_virtual_env_override (os : OS) (fs : FS) (rd : Option Path) (p : Path) :
    venvDirOf (some p) = p ∧
    venvDirOf none = Path.join projectRoot ".venv" ∧
    ∀ ve : Option Path, resolve_env true os fs ve rd =
      (if fs.pathExists (venvDirOf ve) then
        .ok (.Venv (venvDirOf ve),
          [.setEnvVar "PYTHONPATH" (pythonpathString (compose fs (venvDirOf ve)))])
      else
        .error (.environmentNotFound (venvDirOf ve) (envNotFoundMsg (venvDirOf ve)))) :=
  ⟨rfl, rfl, fun _ => rfl⟩

/-- Claim C8 as stated is false: the normalization the release branch
applies to the resource directory is `dunce::simplified`, a pure syntactic
function that performs no symlink resolution — at a concrete filesystem
where `opt/app` is a symbolic link, the normalized resource directory still
passes through that link. -/
theorem c8_counterexample :
    c8lfs.isSymlink ["opt", "app"] = true ∧
    dunce_simplified OS.unix ["opt", "app", "resources"] = ["opt", "app", "resources"] ∧
    symlinkFree c8lfs (dunce_simplified OS.unix ["opt", "app", "resources"]) = false := by
  refine ⟨by decide, rfl, by decide⟩

/-- Claim C8 (amended): the normalization applied to the resolved resource
directory is `dunce::simplified`, which is the identity on non-Windows
paths (and on Windows only strips the `\\?\` verbatim prefix); it performs
no symlink resolution, and the release branch uses its output directly as
the Standalone interpreter environment. -/
theorem c8_simplified_is_syntactic (os : OS) (fs : FS) (ve : Option Path) (rd : Path) :
    resolve_env false os fs ve (some rd) =
      .ok (.Standalone (dunce_simplified os rd), []) ∧
    dunce_simplified OS.unix rd = rd :=
  ⟨rfl, rfl⟩

/-- Claim C10: development-mode resolution succeeds for every venv path that
merely exists on disk — even a plain file — and the environment-not-found
branch is taken exactly when the path does not exist. -/
theorem c10_exists_suffices (os : OS) (fs : FS) (ve : Option Path) (rd : Option Path) :
    (fs.kind (venvDirOf ve) = some FKind.file →
      resolve_env true os fs ve rd =
        .ok (.Venv (venvDirOf ve),
          [.setEnvVar "PYTHONPATH" (pythonpathString (compose fs (venvDirOf ve)))])) ∧
    (resolve_env true os fs ve rd =
        .error (.environmentNotFound (venvDirOf ve) (envNotFoundMsg (venvDirOf ve))) ↔
      fs.pathExists (venvDirOf ve) = false) := by
  constructor
  · intro h
    have hex : fs.pathExists (venvDirOf ve) = true := by
      simp [FS.pathExists, h]
    simp [resolve_env, hex]
  · by_cases hex : fs.pathExists (venvDirOf ve) = true
    · simp [resolve_env, hex]
    · have hex' : fs.pathExists (venvDirOf ve) = false := by
        simpa using hex
      simp [resolve_env, hex']

/-- Witness for C10 at the fixture `wfsFile`, where the default venv path is
a plain file. -/
theorem c10_witness :
    wfsFile.kind (venvDirOf none) = some FKind.file ∧
    resolve_env true OS.unix wfsFile none none =
      .ok (.Venv (venvDirOf none),
        [.setEnvVar "PYTHONPATH" (pythonpathString (compose wfsFile (venvDirOf none)))]) :=
  ⟨by decide, (c10_exists_suffices OS.unix wfsFile none none).1 (by decide)⟩

end LocalTranslate
